import Mathlib

/-!
# LinkMind (HuaweiRTNAdapter.py) — verification of the audit engine

Shallow embedding of the LinkMind v101.0 "RICO Act" auditor:
regex-based snapshot parsing (`safe_extract` / `HuaweiAdapter.parse`),
the concurrent offense evaluator (`TheGodfather._judge_concurrently`),
the probation state machine (`DatabaseManager` + `_process_verdict`)
and the batch remediation step (`_execute_rico_act`).

Modelling conventions:
* Python floats are modelled as exact rationals (`ℚ`); all numeric
  values reached by the claims (0.5, 1.2, 1.5, 28, 56, rule costs) are
  exactly representable, and the comparisons involved are exact in both
  models.
* Dates are modelled as integer day numbers; `date.today()` becomes an
  explicit `today : Int` parameter, and `(today - start).days` becomes
  integer subtraction, matching whole-day granularity.
* The sqlite tables are modelled as in-memory state: the probation
  table as an association list keyed by link id (`INSERT OR IGNORE`,
  `UPDATE ... WHERE`, `DELETE ... WHERE` modelled per their SQL
  semantics) and the financial ledger as an append-only list.
* A propagating Python exception is modelled by `Option`: `none` means
  the call raised.
* `re.search` is modelled pattern-by-pattern: each regex used by the
  adapter has the shape "literal prefix, separator, greedy character
  class capture"; the scanner tries every start position left to right,
  which matches `re.search`'s leftmost-match semantics because each
  class is disjoint from the separator that precedes it (no
  backtracking ambiguity). Character classes are modelled over ASCII.
-/

/-- Python `\s` whitespace class (ASCII part). -/
def isWS (c : Char) : Bool :=
  c = ' ' || c = '\t' || c = '\n' || c = '\r' || c = '\x0b' || c = '\x0c'

/-- Characters of the id capture class `[A-Z0-9_]`. -/
def isIdChar (c : Char) : Bool := c.isUpper || c.isDigit || c = '_'

/-- Characters of the float capture class `[\d.]`. -/
def isFloatChar (c : Char) : Bool := c.isDigit || c = '.'

/-- Does `pat` occur at the head of `l`? -/
def leadMatch : List Char → List Char → Bool
  | [], _ => true
  | _ :: _, [] => false
  | p :: ps, c :: cs => p = c && leadMatch ps cs

/-- Substring containment, as Python `pat in text` / `re.search` on a literal. -/
def containsSub (pat : List Char) : List Char → Bool
  | [] => pat.isEmpty
  | c :: t => leadMatch pat (c :: t) || containsSub pat t

/-- Try the whole pattern at every start position, leftmost first:
the search strategy of `re.search`. -/
def scanFor (try1 : List Char → Option (List Char)) : List Char → Option (List Char)
  | [] => try1 []
  | c :: t =>
    match try1 (c :: t) with
    | some g => some g
    | none => scanFor try1 t

/-- Consume a literal prefix. -/
def afterLit (pat l : List Char) : Option (List Char) :=
  if leadMatch pat l then some (l.drop pat.length) else none

/-- Consume `\s*:\s*`. -/
def sepColon (l : List Char) : Option (List Char) :=
  match l.dropWhile isWS with
  | ':' :: rest => some (rest.dropWhile isWS)
  | _ => none

/-- Greedy nonempty capture of a character class (`(cls+)`). -/
def groupPlus (cls : Char → Bool) (l : List Char) : Option (List Char) :=
  let g := l.takeWhile cls
  if g.isEmpty then none else some g

/-- One attempt, at the head of `l`, of a pattern `lit\s*:\s*(cls+)`. -/
def tryLitColonGroup (pre : List Char) (cls : Char → Bool) (l : List Char) :
    Option (List Char) := do
  let r1 ← afterLit pre l
  let r2 ← sepColon r1
  groupPlus cls r2

/-- One attempt, at the head of `l`, of the id pattern `\+\+\+\s+([A-Z0-9_]+)`. -/
def tryIdPat (l : List Char) : Option (List Char) := do
  let r1 ← afterLit ['+', '+', '+'] l
  let ws := r1.takeWhile isWS
  if ws.isEmpty then none else groupPlus isIdChar (r1.drop ws.length)

/-- Decimal value of a digit list. -/
def digitsToNat (l : List Char) : Nat :=
  l.foldl (fun a c => a * 10 + (c.toNat - 48)) 0

/-- Python `float()` on a capture of class `[\d.]+`: accepts at most one
dot and at least one digit; exact rational value. -/
def pyFloatOfChars (l : List Char) : Option ℚ :=
  let ip := l.takeWhile Char.isDigit
  match l.drop ip.length with
  | [] => if ip.isEmpty then none else some (digitsToNat ip : ℚ)
  | '.' :: rest =>
    if rest.all Char.isDigit && !(ip.isEmpty && rest.isEmpty) then
      some ((digitsToNat ip : ℚ) + (digitsToNat rest : ℚ) / ((10 : ℚ) ^ rest.length))
    else none
  | _ => none

/-- Python `int()` on a capture of class `[A-Z0-9_]+`: digits with
single underscores strictly between digits; any letter rejects. -/
def undDigits : List Char → Bool
  | [] => true
  | '_' :: [] => false
  | '_' :: c :: t => c.isDigit && undDigits t
  | c :: t => c.isDigit && undDigits t

/-- Value of a Python-int-accepted id capture (`none` = `ValueError`). -/
def pyIntOfIdChars (l : List Char) : Option Nat :=
  match l with
  | [] => none
  | c :: _ =>
    if c.isDigit && undDigits l then some (digitsToNat (l.filter (· ≠ '_'))) else none

/-- Python `int()` applied to a nonnegative-or-negative rational
(truncation toward zero). -/
def pyInt (q : ℚ) : Int := if 0 ≤ q then ⌊q⌋ else ⌈q⌉

-- ### CONFIG (module-level policy constants)

def SAFETY_MARGIN : ℚ := 1.2
def PROBATION_DAYS : Int := 15
def LICENSE_MBPS : ℚ := 10
def BW_MHZ : ℚ := 20
def POWER_WATT : ℚ := 5

-- ### Regex patterns of the Huawei adapter

def licCapPat : List Char := "Current License Capacity(Mbps)".data
def thrPat : List Char := "Air-interface Throughput(Mbps)".data
def bwPat : List Char := "Channel Bandwidth(MHz)".data
def adminPat : List Char := "Port Admin Status".data
def vendorSig : List Char := "Current License Capacity".data

/-- Model of `detect_vendor`: signature sniffing on the raw text. -/
def detect_vendor (raw : String) : String :=
  if containsSub vendorSig raw.data then "Huawei" else "Unknown"

-- ### HuaweiAdapter.parse and the safe_extract field extractors

/-- The parsed field record returned by `HuaweiAdapter.parse`. -/
structure RawFields where
  id : String
  license_reserved : Int
  throughput : ℚ
  bandwidth : Int
  status : String
deriving DecidableEq, Repr

/-- Model of `safe_extract(r"\+\+\+\s+([A-Z0-9_]+)", text, "UNKNOWN", str)`.
Because `safe_extract` tests `return_type == float` and otherwise runs
`int(match.group(1))` even when `return_type` is `str`, a matched name
yields the default `"UNKNOWN"` unless it parses as a Python int, in
which case the (integer) value is the id; we render it in decimal. -/
def extractId (text : List Char) : String :=
  match scanFor tryIdPat text with
  | none => "UNKNOWN"
  | some g =>
    match pyIntOfIdChars g with
    | none => "UNKNOWN"
    | some n => toString n

/-- Model of `safe_extract` for `Current License Capacity(Mbps)\s*:\s*(\d+)`, default 0. -/
def extractLicense (text : List Char) : Int :=
  match scanFor (tryLitColonGroup licCapPat Char.isDigit) text with
  | none => 0
  | some g => (digitsToNat g : Int)

/-- Model of `safe_extract` for `Air-interface Throughput(Mbps)\s*:\s*([\d.]+)`,
default 0.0; `float()` failure also yields the default. -/
def extractThroughput (text : List Char) : ℚ :=
  match scanFor (tryLitColonGroup thrPat isFloatChar) text with
  | none => 0
  | some g => (pyFloatOfChars g).getD 0

/-- Model of `safe_extract` for `Channel Bandwidth(MHz)\s*:\s*(\d+)`, default 0. -/
def extractBandwidth (text : List Char) : Int :=
  match scanFor (tryLitColonGroup bwPat Char.isDigit) text with
  | none => 0
  | some g => (digitsToNat g : Int)

/-- The status expression of `parse`: guarded by a bare substring test on
`"Port Admin Status"`, with default `"DOWN"`; when the guard passes but the
full pattern `Port Admin Status\s*:\s*([A-Z]+)` matches nowhere,
`.group(1)` is called on `None` and the call raises (`none`). -/
def extractStatus (text : List Char) : Option String :=
  if containsSub adminPat text then
    (scanFor (tryLitColonGroup adminPat Char.isUpper) text).map fun g => String.mk g
  else some "DOWN"

/-- Model of `HuaweiAdapter.parse`; `none` models a propagating `AttributeError`. -/
def parse (text : String) : Option RawFields :=
  match extractStatus text.data with
  | none => none
  | some st =>
    some ⟨extractId text.data, extractLicense text.data, extractThroughput text.data,
          extractBandwidth text.data, st⟩

-- ### Data structures

/-- Record `NodeData`: the in-memory snapshot handed to the judge. -/
structure NodeData where
  id : String
  vendor : String
  bandwidth : Int
  throughput : ℚ
  license_reserved : Int
  license_actual : Int
  admin_status : String
deriving DecidableEq, Repr

/-- Record `Offense`: a single detected crime. -/
structure Offense where
  code : String
  wasted_qty : ℚ
  saving_value : ℚ
  details : String
deriving DecidableEq, Repr

/-- Record `Verdict`: status plus the indictment list and aggregate savings. -/
structure Verdict where
  status : String
  offenses : List Offense
  total_savings : ℚ
deriving DecidableEq, Repr

-- ### DatabaseManager state (probation table + financial ledger)

/-- One row of `probation_list`. -/
structure ProbRec where
  offense_summary : String
  start_date : Int
  last_seen : Int
  strike_count : Int
deriving DecidableEq, Repr

/-- One row of `financial_ledger`. -/
structure LedgerEntry where
  date : Int
  link_id : String
  action_taken : String
  recovered_value : ℚ
deriving DecidableEq, Repr

/-- The whole durable state. -/
structure DB where
  probation : List (String × ProbRec)
  ledger : List LedgerEntry
deriving DecidableEq, Repr

/-- First row with the given key (the `SELECT ... WHERE link_id=?`). -/
def lookupRec : List (String × ProbRec) → String → Option ProbRec
  | [], _ => none
  | (k, r) :: t, l => if k = l then some r else lookupRec t l

/-- Model of `DatabaseManager.check_probation`. -/
def check_probation (db : DB) (l : String) : Option ProbRec :=
  lookupRec db.probation l

/-- Model of `DatabaseManager.add_suspect`: `INSERT OR IGNORE` with
`start_date = last_seen = today` and `strike_count = 1`. -/
def add_suspect (db : DB) (today : Int) (l summary : String) : DB :=
  if (lookupRec db.probation l).isSome then db
  else { db with probation := db.probation ++ [(l, ⟨summary, today, today, 1⟩)] }

/-- Model of `DatabaseManager.update_suspect`: bump `strike_count`, refresh
`last_seen`, on every row whose key matches. -/
def update_suspect (db : DB) (today : Int) (l : String) : DB :=
  { db with
    probation := db.probation.map fun p =>
      if p.1 = l then
        (p.1, { p.2 with last_seen := today, strike_count := p.2.strike_count + 1 })
      else p }

/-- Model of `DatabaseManager.release_suspect`: `DELETE ... WHERE link_id=?`. -/
def release_suspect (db : DB) (l : String) : DB :=
  { db with probation := db.probation.filter fun p => p.1 ≠ l }

/-- Model of `DatabaseManager.record_profit`: append one ledger row. -/
def record_profit (db : DB) (today : Int) (l action : String) (v : ℚ) : DB :=
  { db with ledger := db.ledger ++ [⟨today, l, action, v⟩] }

-- ### TheGodfather._judge_concurrently

/-- The RICO judge: all three rules evaluated, never short-circuiting. -/
def judge_concurrently (node : NodeData) : Verdict :=
  let c1 : List Offense × ℚ :=
    if (node.license_reserved : ℚ) > (node.license_actual : ℚ) * 1.5 ∧
        node.license_reserved > 50 then
      let wasted : Int := node.license_reserved - node.license_actual
      ([⟨"LICENSE", (wasted : ℚ), (wasted : ℚ) * LICENSE_MBPS,
          "Hoarding " ++ toString wasted ++ "Mbps"⟩], (wasted : ℚ) * LICENSE_MBPS)
    else ([], 0)
  let c2 : List Offense × ℚ :=
    if node.bandwidth = 56 ∧ node.throughput < 50 then
      ([⟨"BW", 28, 28 * BW_MHZ, "Wasting Spectrum"⟩], 28 * BW_MHZ)
    else ([], 0)
  let c3 : List Offense × ℚ :=
    if node.admin_status = "UP" ∧ node.throughput < 1 then
      ([⟨"ZOMBIE", 1, 50, "Zombie Port Active"⟩], 50)
    else ([], 0)
  let offenses := c1.1 ++ c2.1 ++ c3.1
  ⟨if offenses.isEmpty then "Innocent" else "Guilty", offenses, c1.2 + c2.2 + c3.2⟩

-- ### HuaweiAdapter.generate_fix and the reports

/-- Model of `HuaweiAdapter.generate_fix`. -/
def generate_fix (link_id : String) (value : Int) (fix_type : String) : String :=
  if fix_type = "LICENSE" then
    "MOD MWLICENSE: ID=" ++ link_id ++ ", CAP=" ++ toString value ++ ";"
  else if fix_type = "BW" then
    "MOD MWPORT: ID=" ++ link_id ++ ", AM=ENABLE, BW=" ++ toString value ++ "MHZ;"
  else if fix_type = "ZOMBIE" then
    "MOD MWPORT: ID=" ++ link_id ++ ", ADMIN=DOWN;"
  else ""

/-- The structured content of the report strings the pipeline returns
(their textual rendering is presentation-layer). -/
inductive Report where
  | unknownVendor
  | clean (id : String)
  | cleared (id : String)
  | indicted (id : String) (crimes : String)
  | surveillance (id : String) (day : Int) (crimes : String)
  | rico (id : String) (total : ℚ) (ncrimes : Nat) (script : List String)
deriving DecidableEq, Repr

/-- Script lines contributed by one offense inside `_execute_rico_act`. -/
def offense_script (node : NodeData) (o : Offense) : List String :=
  if o.code = "LICENSE" then
    ["// Fix License (Save $" ++ toString o.saving_value ++ ")",
     generate_fix node.id node.license_actual "LICENSE"]
  else if o.code = "BW" then
    ["// Optimize BW (Save $" ++ toString o.saving_value ++ ")",
     generate_fix node.id 28 "BW"]
  else if o.code = "ZOMBIE" then
    ["// Kill Zombie (Save $" ++ toString o.saving_value ++ ")",
     generate_fix node.id 0 "ZOMBIE"]
  else []

/-- Model of `TheGodfather._execute_rico_act`: per offense, script lines plus one
ledger row; afterwards the probation record is released. -/
def execute_rico_act (db : DB) (today : Int) (node : NodeData) (verdict : Verdict)
    (days : Int) : DB × Report :=
  let res := verdict.offenses.foldl
    (fun (acc : List String × DB) o =>
      (acc.1 ++ offense_script node o,
       record_profit acc.2 today node.id ("RICO_" ++ o.code) o.saving_value))
    (["// RICO ACT EXECUTION: " ++ node.id ++ " (After " ++ toString days ++ " days)"], db)
  (release_suspect res.2 node.id,
   Report.rico node.id verdict.total_savings verdict.offenses.length res.1)

/-- Model of `TheGodfather._process_verdict`: the escalation state machine. -/
def process_verdict (db : DB) (today : Int) (node : NodeData) (verdict : Verdict) :
    DB × Report :=
  if verdict.status = "Innocent" then
    match check_probation db node.id with
    | some _ => (release_suspect db node.id, Report.cleared node.id)
    | none => (db, Report.clean node.id)
  else
    let crimes := String.intercalate "," (verdict.offenses.map Offense.code)
    match check_probation db node.id with
    | none => (add_suspect db today node.id crimes, Report.indicted node.id crimes)
    | some rec =>
      let days := today - rec.start_date
      let db1 := update_suspect db today node.id
      if days ≥ PROBATION_DAYS then execute_rico_act db1 today node verdict days
      else (db1, Report.surveillance node.id days crimes)

/-- Model of `TheGodfather.ingest_and_audit`: the whole pipeline; `none` models a
propagating parse exception. -/
def ingest_and_audit (db : DB) (today : Int) (raw : String) : Option (DB × Report) :=
  if detect_vendor raw = "Huawei" then
    match parse raw with
    | none => none
    | some data =>
      let node : NodeData :=
        ⟨data.id, "Huawei", data.bandwidth, data.throughput, data.license_reserved,
         pyInt (data.throughput * SAFETY_MARGIN), data.status⟩
      some (process_verdict db today node (judge_concurrently node))
  else some (db, Report.unknownVendor)

-- ### Spec-side trigger predicates (verbatim from the spec's rule table)

/-- Spec rule 1: License Hoarding trigger. -/
def specLicenseTrigger (n : NodeData) : Prop :=
  (n.license_reserved : ℚ) > (n.license_actual : ℚ) * 1.5 ∧ n.license_reserved > 50

/-- Spec rule 2: Spectrum Waste trigger. -/
def specSpectrumTrigger (n : NodeData) : Prop :=
  n.bandwidth = 56 ∧ n.throughput < 50

/-- Spec rule 3: Zombie Port trigger. -/
def specZombieTrigger (n : NodeData) : Prop :=
  n.admin_status = "UP" ∧ n.throughput < 1

instance (n : NodeData) : Decidable (specLicenseTrigger n) := by
  unfold specLicenseTrigger; infer_instance

instance (n : NodeData) : Decidable (specSpectrumTrigger n) := by
  unfold specSpectrumTrigger; infer_instance

instance (n : NodeData) : Decidable (specZombieTrigger n) := by
  unfold specZombieTrigger; infer_instance

-- ### Helper lemmas about the judge

theorem judge_offenses (n : NodeData) :
    (judge_concurrently n).offenses =
      (if (n.license_reserved : ℚ) > (n.license_actual : ℚ) * 1.5 ∧
          n.license_reserved > 50 then
        [⟨"LICENSE", ((n.license_reserved - n.license_actual : Int) : ℚ),
          ((n.license_reserved - n.license_actual : Int) : ℚ) * LICENSE_MBPS,
          "Hoarding " ++ toString (n.license_reserved - n.license_actual) ++ "Mbps"⟩]
      else []) ++
      (if n.bandwidth = 56 ∧ n.throughput < 50 then
        [⟨"BW", 28, 28 * BW_MHZ, "Wasting Spectrum"⟩] else []) ++
      (if n.admin_status = "UP" ∧ n.throughput < 1 then
        [⟨"ZOMBIE", 1, 50, "Zombie Port Active"⟩] else []) := by
  unfold judge_concurrently
  split_ifs <;> rfl

theorem judge_total (n : NodeData) :
    (judge_concurrently n).total_savings =
      (if (n.license_reserved : ℚ) > (n.license_actual : ℚ) * 1.5 ∧
          n.license_reserved > 50 then
        ((n.license_reserved - n.license_actual : Int) : ℚ) * LICENSE_MBPS else 0) +
      (if n.bandwidth = 56 ∧ n.throughput < 50 then 28 * BW_MHZ else 0) +
      (if n.admin_status = "UP" ∧ n.throughput < 1 then 50 else 0) := by
  unfold judge_concurrently
  split_ifs <;> rfl


-- ### Helper lemmas about the database operations

theorem lookupRec_cons (p : String × ProbRec) (t : List (String × ProbRec)) (j : String) :
    lookupRec (p :: t) j = if p.1 = j then some p.2 else lookupRec t j := rfl
theorem lookupRec_filter (l : List (String × ProbRec)) (k j : String) :
    lookupRec (l.filter fun p => p.1 ≠ k) j =
      if j = k then none else lookupRec l j := by
  induction l with
  | nil => simp [lookupRec]
  | cons p t ih =>
    rw [List.filter_cons]
    by_cases hpk : p.1 = k
    · rw [if_neg (by simp [hpk]), ih]
      by_cases hjk : j = k
      · simp [hjk]
      · rw [if_neg hjk, if_neg hjk, lookupRec_cons,
          if_neg (fun h => hjk (hpk.symm.trans h).symm)]
    · rw [if_pos (by simp [hpk]), lookupRec_cons, lookupRec_cons]
      by_cases hpj : p.1 = j
      · rw [if_pos hpj, if_pos hpj, if_neg (fun h : j = k => hpk (hpj.trans h))]
      · rw [if_neg hpj, if_neg hpj, ih]

theorem lookupRec_map_bump (l : List (String × ProbRec)) (today : Int) (k j : String) :
    lookupRec (l.map fun p =>
        if p.1 = k then
          (p.1, { p.2 with last_seen := today, strike_count := p.2.strike_count + 1 })
        else p) j =
      if j = k then
        (lookupRec l j).map fun r =>
          { r with last_seen := today, strike_count := r.strike_count + 1 }
      else lookupRec l j := by
  induction l with
  | nil => simp [lookupRec]
  | cons p t ih =>
    rw [List.map_cons]
    by_cases hpk : p.1 = k
    · rw [if_pos hpk, lookupRec_cons]
      by_cases hjk : j = k
      · rw [if_pos (show (p.1, _).1 = j from hjk ▸ hpk), if_pos hjk, lookupRec_cons,
          if_pos (hjk ▸ hpk)]
        rfl
      · rw [if_neg (show ¬ (p.1, _).1 = j from fun h => hjk (hpk.symm.trans h).symm), ih,
          if_neg hjk, if_neg hjk, lookupRec_cons,
          if_neg (fun h : p.1 = j => hjk (hpk.symm.trans h).symm)]
    · rw [if_neg hpk, lookupRec_cons, lookupRec_cons]
      by_cases hpj : p.1 = j
      · rw [if_pos hpj, if_pos hpj]
        by_cases hjk : j = k
        · exact absurd (hpj.trans hjk) hpk
        · rw [if_neg hjk]
      · rw [if_neg hpj, if_neg hpj, ih]

theorem check_release (db : DB) (k j : String) :
    check_probation (release_suspect db k) j =
      if j = k then none else check_probation db j := by
  unfold check_probation release_suspect
  exact lookupRec_filter db.probation k j

theorem check_update (db : DB) (today : Int) (k j : String) :
    check_probation (update_suspect db today k) j =
      if j = k then
        (check_probation db j).map fun r =>
          { r with last_seen := today, strike_count := r.strike_count + 1 }
      else check_probation db j := by
  unfold check_probation update_suspect
  exact lookupRec_map_bump db.probation today k j

theorem lookupRec_append (l1 l2 : List (String × ProbRec)) (j : String) :
    lookupRec (l1 ++ l2) j =
      match lookupRec l1 j with
      | some r => some r
      | none => lookupRec l2 j := by
  induction l1 with
  | nil => simp [lookupRec]
  | cons p t ih =>
    rw [List.cons_append, lookupRec_cons, lookupRec_cons]
    by_cases hpj : p.1 = j
    · rw [if_pos hpj, if_pos hpj]
    · rw [if_neg hpj, if_neg hpj, ih]

theorem check_add (db : DB) (today : Int) (k s j : String) :
    check_probation (add_suspect db today k s) j =
      if check_probation db k = none ∧ j = k then some ⟨s, today, today, 1⟩
      else check_probation db j := by
  unfold check_probation add_suspect
  by_cases hk : (lookupRec db.probation k).isSome
  · rw [if_pos hk]
    have hk2 : ¬ lookupRec db.probation k = none := by
      intro h; rw [h] at hk; exact absurd hk (by simp)
    rw [if_neg (fun h => hk2 h.1)]
  · rw [if_neg hk]
    have hk2 : lookupRec db.probation k = none := by
      cases h : lookupRec db.probation k with
      | none => rfl
      | some r => rw [h] at hk; exact absurd rfl hk
    dsimp only
    rw [lookupRec_append]
    by_cases hjk : j = k
    · subst hjk
      rw [if_pos ⟨hk2, rfl⟩, hk2]
      simp [lookupRec]
    · rw [if_neg (fun h => hjk h.2)]
      cases hj : lookupRec db.probation j with
      | some r => rfl
      | none =>
        rw [lookupRec_cons, if_neg (fun h => hjk h.symm)]
        rfl

theorem ledger_update (db : DB) (today : Int) (k : String) :
    (update_suspect db today k).ledger = db.ledger := rfl

theorem ledger_release (db : DB) (k : String) :
    (release_suspect db k).ledger = db.ledger := rfl

theorem ledger_add (db : DB) (today : Int) (k s : String) :
    (add_suspect db today k s).ledger = db.ledger := by
  unfold add_suspect
  by_cases h : (lookupRec db.probation k).isSome
  · rw [if_pos h]
  · rw [if_neg h]

/-- The state produced by the per-offense loop of `_execute_rico_act`:
probation untouched, one ledger row appended per offense in order. -/
theorem rico_fold_state (n : NodeData) (t : Int) (offs : List Offense)
    (s : List String) (db : DB) :
    (offs.foldl (fun (acc : List String × DB) o =>
        (acc.1 ++ offense_script n o,
         record_profit acc.2 t n.id ("RICO_" ++ o.code) o.saving_value)) (s, db)).2 =
      { probation := db.probation,
        ledger := db.ledger ++ offs.map fun o =>
          ⟨t, n.id, "RICO_" ++ o.code, o.saving_value⟩ } := by
  induction offs generalizing s db with
  | nil => simp
  | cons o rest ih =>
    rw [List.foldl_cons, ih, List.map_cons]
    simp [record_profit]

theorem rico_probation (db : DB) (t : Int) (n : NodeData) (v : Verdict) (d : Int)
    (j : String) :
    check_probation (execute_rico_act db t n v d).1 j =
      if j = n.id then none else check_probation db j := by
  unfold execute_rico_act
  dsimp only
  rw [rico_fold_state, check_release]
  rfl

theorem rico_ledger (db : DB) (t : Int) (n : NodeData) (v : Verdict) (d : Int) :
    (execute_rico_act db t n v d).1.ledger =
      db.ledger ++ v.offenses.map fun o => ⟨t, n.id, "RICO_" ++ o.code, o.saving_value⟩ := by
  unfold execute_rico_act
  dsimp only
  rw [rico_fold_state]
  rfl

-- ### Branch characterizations of the escalation state machine

theorem process_innocent (db : DB) (today : Int) (node : NodeData) (v : Verdict)
    (hg : v.status = "Innocent") :
    process_verdict db today node v =
      match check_probation db node.id with
      | some _ => (release_suspect db node.id, Report.cleared node.id)
      | none => (db, Report.clean node.id) := by
  unfold process_verdict
  rw [if_pos hg]

theorem process_guilty_norec (db : DB) (today : Int) (node : NodeData) (v : Verdict)
    (hg : ¬ v.status = "Innocent") (hr : check_probation db node.id = none) :
    process_verdict db today node v =
      (add_suspect db today node.id
        (String.intercalate "," (v.offenses.map Offense.code)),
       Report.indicted node.id (String.intercalate "," (v.offenses.map Offense.code))) := by
  unfold process_verdict
  rw [if_neg hg, hr]

theorem process_guilty_rec (db : DB) (today : Int) (node : NodeData) (v : Verdict)
    (rec : ProbRec) (hg : ¬ v.status = "Innocent")
    (hr : check_probation db node.id = some rec) :
    process_verdict db today node v =
      (if today - rec.start_date ≥ PROBATION_DAYS then
        execute_rico_act (update_suspect db today node.id) today node v
          (today - rec.start_date)
      else
        (update_suspect db today node.id,
         Report.surveillance node.id (today - rec.start_date)
           (String.intercalate "," (v.offenses.map Offense.code)))) := by
  unfold process_verdict
  rw [if_neg hg, hr]

/-- An audit of one link never touches another link's probation row. -/
theorem process_preserves_other_keys (db : DB) (today : Int) (node : NodeData)
    (v : Verdict) (l : String) (hne : ¬ l = node.id) :
    check_probation (process_verdict db today node v).1 l = check_probation db l := by
  by_cases hi : v.status = "Innocent"
  · rw [process_innocent db today node v hi]
    cases hr : check_probation db node.id with
    | some r => rw [check_release, if_neg hne]
    | none => rfl
  · cases hr : check_probation db node.id with
    | none =>
      rw [process_guilty_norec db today node v hi hr]
      rw [check_add]
      rw [if_neg (fun h => hne h.2)]
    | some rec =>
      rw [process_guilty_rec db today node v rec hi hr]
      by_cases hd : today - rec.start_date ≥ PROBATION_DAYS
      · rw [if_pos hd, rico_probation, if_neg hne, check_update, if_neg hne]
      · rw [if_neg hd]
        rw [check_update, if_neg hne]

/-- One audit step can only keep, bump, create or delete a probation row:
whenever the row exists before and after the step, its `start_date` is
unchanged and its `strike_count` has not decreased. -/
theorem step_mono (db : DB) (today : Int) (node : NodeData) (v : Verdict)
    (l : String) (r r' : ProbRec)
    (h1 : check_probation db l = some r)
    (h2 : check_probation (process_verdict db today node v).1 l = some r') :
    r'.start_date = r.start_date ∧ r.strike_count ≤ r'.strike_count := by
  by_cases hne : l = node.id
  case neg =>
    rw [process_preserves_other_keys db today node v l hne, h1] at h2
    obtain rfl : r = r' := by injection h2
    exact ⟨rfl, le_refl _⟩
  case pos =>
    subst hne
    by_cases hi : v.status = "Innocent"
    · rw [process_innocent db today node v hi, h1] at h2
      dsimp only at h2
      rw [check_release, if_pos rfl] at h2
      exact absurd h2 (by simp)
    · rw [process_guilty_rec db today node v r hi h1] at h2
      by_cases hd : today - r.start_date ≥ PROBATION_DAYS
      · rw [if_pos hd, rico_probation, if_pos rfl] at h2
        exact absurd h2 (by simp)
      · rw [if_neg hd] at h2
        dsimp only at h2
        rw [check_update, if_pos rfl, h1] at h2
        obtain rfl : { r with last_seen := today, strike_count := r.strike_count + 1 } = r' := by
          injection h2
        exact ⟨rfl, by dsimp only; omega⟩

-- ### Audit sequences (repeated invocations of the state machine)

/-- One audit invocation's inputs to the escalation state machine. -/
structure AuditStep where
  today : Int
  node : NodeData
  verdict : Verdict

/-- The state left by one audit invocation. -/
def runStep (db : DB) (s : AuditStep) : DB :=
  (process_verdict db s.today s.node s.verdict).1

/-- The state left by a sequence of audit invocations. -/
def runAudits : DB → List AuditStep → DB
  | db, [] => db
  | db, s :: t => runAudits (runStep db s) t

/-- Link `l`'s probation row exists at every state reached along the run
(the row is never deleted during the sequence). -/
def survives (l : String) : DB → List AuditStep → Bool
  | db, [] => (check_probation db l).isSome
  | db, s :: t => (check_probation db l).isSome && survives l (runStep db s) t

theorem survives_head (l : String) (db : DB) (steps : List AuditStep)
    (h : survives l db steps = true) : (check_probation db l).isSome := by
  cases steps with
  | nil => exact h
  | cons s t => exact (Bool.and_eq_true _ _ ▸ h).1

-- ### Claims

/-- Claim C1: For every snapshot, the offense evaluator checks all three
rules (License Hoarding, Spectrum Waste, Zombie Port) independently
without short-circuiting: the verdict's offense list carries exactly
the offense codes whose spec trigger conditions hold, in the fixed
order LICENSE, then BW, then ZOMBIE — so 0, 1, 2 or 3 offenses can
co-occur and none hides another. -/
theorem all_rules_checked_in_order (n : NodeData) :
    (judge_concurrently n).offenses.map Offense.code =
      (if specLicenseTrigger n then ["LICENSE"] else []) ++
      (if specSpectrumTrigger n then ["BW"] else []) ++
      (if specZombieTrigger n then ["ZOMBIE"] else []) := by
  rw [judge_offenses]
  unfold specLicenseTrigger specSpectrumTrigger specZombieTrigger
  split_ifs <;> rfl

/-- Claim C5: For every snapshot, the verdict's `total_savings` equals the
sum of `saving_value` over its offense list. -/
theorem total_savings_is_sum (n : NodeData) :
    (judge_concurrently n).total_savings =
      ((judge_concurrently n).offenses.map Offense.saving_value).sum := by
  rw [judge_offenses, judge_total]
  split_ifs <;> simp <;> ring

/-- Claim C6: Boundary strictness: a snapshot whose reserved license sits
exactly at `1.5 ×` the required license does not trigger License
Hoarding; throughput exactly `1.0` does not trigger Zombie Port; and
throughput exactly `50` does not trigger Spectrum Waste. -/
theorem boundaries_are_exclusive (n : NodeData) :
    ((n.license_reserved : ℚ) = (n.license_actual : ℚ) * 1.5 →
      "LICENSE" ∉ (judge_concurrently n).offenses.map Offense.code) ∧
    (n.throughput = 1 →
      "ZOMBIE" ∉ (judge_concurrently n).offenses.map Offense.code) ∧
    (n.throughput = 50 →
      "BW" ∉ (judge_concurrently n).offenses.map Offense.code) := by
  refine ⟨fun h => ?_, fun h => ?_, fun h => ?_⟩
  · have hf : ¬((n.license_reserved : ℚ) > (n.license_actual : ℚ) * 1.5 ∧
        n.license_reserved > 50) := by
      rintro ⟨h1, -⟩
      rw [h] at h1
      exact lt_irrefl _ h1
    rw [judge_offenses, if_neg hf]
    split_ifs <;> simp
  · have hf : ¬(n.admin_status = "UP" ∧ n.throughput < 1) := by
      rintro ⟨-, h1⟩
      rw [h] at h1
      exact lt_irrefl _ h1
    rw [judge_offenses, if_neg hf]
    split_ifs <;> simp
  · have hf : ¬(n.bandwidth = 56 ∧ n.throughput < 50) := by
      rintro ⟨-, h1⟩
      rw [h] at h1
      exact lt_irrefl _ h1
    rw [judge_offenses, if_neg hf]
    split_ifs <;> simp

/-- Witness for C6: concrete boundary snapshots (reserved = 150 = 1.5 × 100;
throughput exactly 1; throughput exactly 50) trigger nothing. -/
theorem boundaries_are_exclusive_witness :
    "LICENSE" ∉ (judge_concurrently
        ⟨"B1", "Huawei", 0, 10, 150, 100, "DOWN"⟩).offenses.map Offense.code ∧
    "ZOMBIE" ∉ (judge_concurrently
        ⟨"B2", "Huawei", 0, 1, 0, 0, "UP"⟩).offenses.map Offense.code ∧
    "BW" ∉ (judge_concurrently
        ⟨"B3", "Huawei", 56, 50, 0, 0, "DOWN"⟩).offenses.map Offense.code :=
  ⟨(boundaries_are_exclusive ⟨"B1", "Huawei", 0, 10, 150, 100, "DOWN"⟩).1 (by norm_num),
   (boundaries_are_exclusive ⟨"B2", "Huawei", 0, 1, 0, 0, "UP"⟩).2.1 rfl,
   (boundaries_are_exclusive ⟨"B3", "Huawei", 56, 50, 0, 0, "DOWN"⟩).2.2 rfl⟩

/-- Claim C4: End-to-end scenario A: licenseReserved = 400, throughput = 0.5,
bandwidth = 56, adminStatus = UP, safetyMargin = 1.2: the derived required
license is `int(0.5 × 1.2) = 0`, and the judge returns exactly the three
offenses LICENSE (wasted 400, $4000), BW (wasted 28, $560), ZOMBIE
(wasted 1, $50), with total savings 4610 = 400×10 + 28×20 + 50. -/
theorem scenario_a_three_offenses :
    pyInt ((1/2 : ℚ) * SAFETY_MARGIN) = 0 ∧
    judge_concurrently ⟨"DJELFA_GHOST_LINK", "Huawei", 56, 1/2, 400,
        pyInt ((1/2 : ℚ) * SAFETY_MARGIN), "UP"⟩ =
      ⟨"Guilty",
       [⟨"LICENSE", 400, 4000, "Hoarding 400Mbps"⟩,
        ⟨"BW", 28, 560, "Wasting Spectrum"⟩,
        ⟨"ZOMBIE", 1, 50, "Zombie Port Active"⟩], 4610⟩ ∧
    (4610 : ℚ) = 400 * LICENSE_MBPS + 28 * BW_MHZ + 50 := by
  have h0 : pyInt ((1/2 : ℚ) * SAFETY_MARGIN) = 0 := by
    have h : (1/2 : ℚ) * SAFETY_MARGIN = 3/5 := by norm_num [SAFETY_MARGIN]
    rw [pyInt, h, if_pos (by norm_num), Int.floor_eq_zero_iff]
    constructor <;> norm_num
  refine ⟨h0, ?_, by norm_num [LICENSE_MBPS, BW_MHZ]⟩
  rw [h0]
  unfold judge_concurrently
  rw [if_pos (by constructor <;> norm_num), if_pos (by constructor <;> norm_num),
    if_pos (by constructor <;> norm_num)]
  norm_num [LICENSE_MBPS, BW_MHZ, Verdict.mk.injEq, Offense.mk.injEq]
  decide

/-- Claim C2, counterexample: The claim "parse returns a complete record
without raising, with `UNKNOWN` as the admin-status default" fails twice
on the code: the input `"Port Admin Status : up"` passes the bare
substring guard but matches the full pattern nowhere, so `.group(1)` is
called on `None` and parse raises; and on input `""` the admin-status
default is `"DOWN"`, not `"UNKNOWN"`. -/
theorem parse_not_total_counterexample :
    parse "Port Admin Status : up" = none ∧
    parse "" = some ⟨"UNKNOWN", 0, 0, 0, "DOWN"⟩ ∧ ("DOWN" : String) ≠ "UNKNOWN" :=
  ⟨by decide, by decide, by decide⟩

theorem parse_isSome_eq (text : String) :
    (parse text).isSome = (extractStatus text.data).isSome := by
  unfold parse
  cases extractStatus text.data <;> rfl

/-- Claim C2, amended: Parsing is total except for the admin-status gap:
`parse` succeeds iff the substring `"Port Admin Status"` is absent or
the full admin-status pattern matches somewhere (otherwise it raises
`AttributeError`); and on success every failed extraction — the pattern
matching nowhere, or the `int()`/`float()` conversion of the captured
group raising inside `safe_extract`'s bare `except` — takes its
default: 0 for the numeric fields, `"UNKNOWN"` for the id, and
`"DOWN"` (not `"UNKNOWN"`) for the admin-status field. (The two
digit-class fields have no conversion-failure mode: `int()` on a `\d+`
capture always succeeds.) -/
theorem parse_total_except_admin_gap (text : String) :
    ((parse text).isSome ↔
      (containsSub adminPat text.data = true →
        (scanFor (tryLitColonGroup adminPat Char.isUpper) text.data).isSome)) ∧
    (∀ r, parse text = some r →
      (scanFor (tryLitColonGroup licCapPat Char.isDigit) text.data = none →
        r.license_reserved = 0) ∧
      ((scanFor (tryLitColonGroup thrPat isFloatChar) text.data = none ∨
        (∃ g, scanFor (tryLitColonGroup thrPat isFloatChar) text.data = some g ∧
          pyFloatOfChars g = none)) →
        r.throughput = 0) ∧
      (scanFor (tryLitColonGroup bwPat Char.isDigit) text.data = none →
        r.bandwidth = 0) ∧
      ((scanFor tryIdPat text.data = none ∨
        (∃ g, scanFor tryIdPat text.data = some g ∧ pyIntOfIdChars g = none)) →
        r.id = "UNKNOWN") ∧
      (containsSub adminPat text.data = false → r.status = "DOWN")) := by
  constructor
  · by_cases h : containsSub adminPat text.data = true
    · have hst : extractStatus text.data =
          (scanFor (tryLitColonGroup adminPat Char.isUpper) text.data).map
            (fun g => String.mk g) := by
        unfold extractStatus
        rw [if_pos h]
      rw [show ((parse text).isSome : Prop) = ((extractStatus text.data).isSome : Prop) by
        rw [parse_isSome_eq], hst]
      simp [h, Option.isSome_map]
    · have hst : extractStatus text.data = some "DOWN" := by
        unfold extractStatus
        rw [if_neg h]
      rw [show ((parse text).isSome : Prop) = ((extractStatus text.data).isSome : Prop) by
        rw [parse_isSome_eq], hst]
      simp [h]
  · intro r hr
    unfold parse at hr
    cases hst : extractStatus text.data with
    | none =>
      rw [hst] at hr
      exact absurd hr (by simp)
    | some st =>
      rw [hst] at hr
      have hrec : r = ⟨extractId text.data, extractLicense text.data,
          extractThroughput text.data, extractBandwidth text.data, st⟩ := by
        injection hr with h2
        exact h2.symm
      subst hrec
      refine ⟨fun h => ?_, fun h => ?_, fun h => ?_, fun h => ?_, fun h => ?_⟩
      · show extractLicense text.data = 0
        unfold extractLicense
        rw [h]
      · show extractThroughput text.data = 0
        unfold extractThroughput
        rcases h with h | ⟨g, hg, hfail⟩
        · rw [h]
        · rw [hg]
          dsimp only
          rw [hfail]
          rfl
      · show extractBandwidth text.data = 0
        unfold extractBandwidth
        rw [h]
      · show extractId text.data = "UNKNOWN"
        unfold extractId
        rcases h with h | ⟨g, hg, hfail⟩
        · rw [h]
        · rw [hg]
          dsimp only
          rw [hfail]
      · show st = "DOWN"
        unfold extractStatus at hst
        rw [if_neg (by rw [h]; exact Bool.false_ne_true)] at hst
        injection hst with h2
        exact h2.symm

/-- Witness for the amended C2 at two concrete inputs: on `"x"` every
extraction pattern fails and every field carries its default; on a text
whose id capture is `"ABC"` (so `int()` raises) and whose throughput
capture is `"1.2.3"` (so `float()` raises), the conversion-failure
defaults `"UNKNOWN"` and 0 are taken. -/
theorem parse_total_except_admin_gap_witness :
    (parse "x").isSome ∧
    (∃ r, parse "x" = some r ∧ r.license_reserved = 0 ∧ r.throughput = 0 ∧
      r.bandwidth = 0 ∧ r.id = "UNKNOWN" ∧ r.status = "DOWN") ∧
    (∃ r, parse "+++ ABC Air-interface Throughput(Mbps) : 1.2.3" = some r ∧
      r.throughput = 0 ∧ r.id = "UNKNOWN") := by
  have h := parse_total_except_admin_gap "x"
  have h2 := parse_total_except_admin_gap "+++ ABC Air-interface Throughput(Mbps) : 1.2.3"
  have hp : parse "x" = some ⟨"UNKNOWN", 0, 0, 0, "DOWN"⟩ := by decide
  have hp2 : parse "+++ ABC Air-interface Throughput(Mbps) : 1.2.3" =
      some ⟨"UNKNOWN", 0, 0, 0, "DOWN"⟩ := by decide
  have hflds := h.2 ⟨"UNKNOWN", 0, 0, 0, "DOWN"⟩ hp
  have hflds2 := h2.2 ⟨"UNKNOWN", 0, 0, 0, "DOWN"⟩ hp2
  refine ⟨h.1.mpr (by decide), ⟨⟨"UNKNOWN", 0, 0, 0, "DOWN"⟩, hp,
    hflds.1 (by decide), hflds.2.1 (Or.inl (by decide)), hflds.2.2.1 (by decide),
    hflds.2.2.2.1 (Or.inl (by decide)), hflds.2.2.2.2 (by decide)⟩,
    ⟨"UNKNOWN", 0, 0, 0, "DOWN"⟩, hp2,
    hflds2.2.1 (Or.inr ⟨"1.2.3".data, by decide, by decide⟩),
    hflds2.2.2.2.1 (Or.inr ⟨"ABC".data, by decide, by decide⟩)⟩

theorem rico_report (db : DB) (t : Int) (n : NodeData) (v : Verdict) (d : Int) :
    ∃ tot nc script, (execute_rico_act db t n v d).2 = Report.rico n.id tot nc script := by
  unfold execute_rico_act
  exact ⟨_, _, _, rfl⟩

/-- Claim C3: For every GUILTY verdict on a link with an existing probation
record, remediation executes iff the record's age (whole days between
start date and audit date) is at least `PROBATION_DAYS = 15`; in that
case the batch ledger entries are appended and the probation record is
deleted, and below the threshold the record is kept and the result is a
surveillance report. -/
theorem remediation_iff_probation_mature
    (db : DB) (today : Int) (node : NodeData) (verdict : Verdict) (rec : ProbRec)
    (hg : verdict.status = "Guilty")
    (hr : check_probation db node.id = some rec) :
    PROBATION_DAYS = 15 ∧
    ((∃ tot nc script, (process_verdict db today node verdict).2 =
        Report.rico node.id tot nc script) ↔ (15 : Int) ≤ today - rec.start_date) ∧
    ((15 : Int) ≤ today - rec.start_date →
      check_probation (process_verdict db today node verdict).1 node.id = none ∧
      (process_verdict db today node verdict).1.ledger =
        db.ledger ++ verdict.offenses.map fun o =>
          ⟨today, node.id, "RICO_" ++ o.code, o.saving_value⟩) ∧
    (today - rec.start_date < (15 : Int) →
      (process_verdict db today node verdict).2 =
        Report.surveillance node.id (today - rec.start_date)
          (String.intercalate "," (verdict.offenses.map Offense.code)) ∧
      (check_probation (process_verdict db today node verdict).1 node.id).isSome) := by
  have hg2 : ¬ verdict.status = "Innocent" := by rw [hg]; decide
  rw [process_guilty_rec db today node verdict rec hg2 hr]
  by_cases hd : today - rec.start_date ≥ PROBATION_DAYS
  · rw [if_pos hd]
    refine ⟨rfl, ⟨fun _ => hd, fun _ => rico_report _ _ _ _ _⟩, fun _ => ⟨?_, ?_⟩,
      fun hlt => absurd hd (not_le.mpr hlt)⟩
    · rw [rico_probation, if_pos rfl]
    · rw [rico_ledger, ledger_update]
  · rw [if_neg hd]
    refine ⟨rfl, ⟨?_, fun h15 => absurd h15 hd⟩, fun h15 => absurd h15 hd,
      fun _ => ⟨rfl, ?_⟩⟩
    · rintro ⟨tot, nc, script, hcontra⟩
      exact Report.noConfusion hcontra
    · rw [check_update, if_pos rfl, hr]
      rfl

/-- Shared concrete state: one link `"L"` on probation since day 0 with
one strike, and a one-offense GUILTY verdict against it. -/
def sampleDB : DB := ⟨[("L", ⟨"ZOMBIE", 0, 0, 1⟩)], []⟩

def sampleNode : NodeData := ⟨"L", "Huawei", 0, 0, 0, 0, "UP"⟩

def sampleVerdict : Verdict := ⟨"Guilty", [⟨"ZOMBIE", 1, 50, "Zombie Port Active"⟩], 50⟩

/-- Witness for C3: at day 20 (age 20 ≥ 15) the record is deleted and the
batch ledger entry is written; at day 5 (age 5 < 15) the result is the
surveillance report. -/
theorem remediation_iff_probation_mature_witness :
    check_probation (process_verdict sampleDB 20 sampleNode sampleVerdict).1 "L" = none ∧
    (process_verdict sampleDB 20 sampleNode sampleVerdict).1.ledger =
      [⟨20, "L", "RICO_ZOMBIE", 50⟩] ∧
    (process_verdict sampleDB 5 sampleNode sampleVerdict).2 =
      Report.surveillance "L" 5 "ZOMBIE" := by
  have h20 := remediation_iff_probation_mature sampleDB 20 sampleNode sampleVerdict
    ⟨"ZOMBIE", 0, 0, 1⟩ rfl (by decide)
  have h5 := remediation_iff_probation_mature sampleDB 5 sampleNode sampleVerdict
    ⟨"ZOMBIE", 0, 0, 1⟩ rfl (by decide)
  refine ⟨(h20.2.2.1 (by decide)).1, ?_, (h5.2.2.2 (by decide)).1⟩
  rw [(h20.2.2.1 (by decide)).2]
  decide

/-- Claim C7: Across any sequence of audits during which link `l`'s
probation record is never deleted, the record's `start_date` never
changes and its `strike_count` never decreases. -/
theorem strikes_monotone_until_release
    (steps : List AuditStep) (db : DB) (l : String) (r r' : ProbRec)
    (h0 : check_probation db l = some r)
    (hs : survives l db steps = true)
    (hend : check_probation (runAudits db steps) l = some r') :
    r'.start_date = r.start_date ∧ r.strike_count ≤ r'.strike_count := by
  induction steps generalizing db r with
  | nil =>
    rw [show runAudits db [] = db from rfl, h0] at hend
    obtain rfl : r = r' := by injection hend
    exact ⟨rfl, le_refl _⟩
  | cons s t ih =>
    have hs2 : survives l (runStep db s) t = true := by
      simp only [survives, Bool.and_eq_true] at hs
      exact hs.2
    obtain ⟨r1, hr1⟩ := Option.isSome_iff_exists.mp (survives_head l (runStep db s) t hs2)
    have hstep := step_mono db s.today s.node s.verdict l r r1 h0 hr1
    have hrest := ih (runStep db s) r1 hr1 hs2 hend
    exact ⟨hrest.1.trans hstep.1, hstep.2.trans hrest.2⟩

/-- Witness for C7: one GUILTY surveillance audit on the sample state
keeps `start_date = 0` and raises the strike count from 1 to 2. -/
theorem strikes_monotone_until_release_witness :
    (⟨"ZOMBIE", 0, 5, 2⟩ : ProbRec).start_date =
      (⟨"ZOMBIE", 0, 0, 1⟩ : ProbRec).start_date ∧
    (⟨"ZOMBIE", 0, 0, 1⟩ : ProbRec).strike_count ≤
      (⟨"ZOMBIE", 0, 5, 2⟩ : ProbRec).strike_count :=
  strikes_monotone_until_release [⟨5, sampleNode, sampleVerdict⟩] sampleDB "L"
    ⟨"ZOMBIE", 0, 0, 1⟩ ⟨"ZOMBIE", 0, 5, 2⟩ (by decide) (by decide) (by decide)

/-- Claim C8: For every raw input whose vendor signature is not recognized,
the audit entry point returns the terminal unrecognized-input report and
the stored state is returned untouched — for every starting state, so no
store is read or written. -/
theorem unknown_vendor_is_terminal (db : DB) (today : Int) (raw : String)
    (h : detect_vendor raw = "Unknown") :
    ingest_and_audit db today raw = some (db, Report.unknownVendor) := by
  unfold ingest_and_audit
  rw [h, if_neg (by decide)]

/-- Witness for C8 on the concrete non-Huawei input `"hello"`. -/
theorem unknown_vendor_is_terminal_witness :
    ingest_and_audit ⟨[], []⟩ 0 "hello" = some (⟨[], []⟩, Report.unknownVendor) :=
  unknown_vendor_is_terminal ⟨[], []⟩ 0 "hello" (by decide)

/-- Claim C9: On every GUILTY audit of a link with an existing probation
record, the record's strike count is incremented and its last-seen date
set to today regardless of the record's age; on the mature path the
remediation step runs on the already-updated state (the update precedes
the deletion). -/
theorem guilty_update_precedes_remediation
    (db : DB) (today : Int) (node : NodeData) (verdict : Verdict) (rec : ProbRec)
    (hg : verdict.status = "Guilty")
    (hr : check_probation db node.id = some rec) :
    check_probation (update_suspect db today node.id) node.id =
      some ⟨rec.offense_summary, rec.start_date, today, rec.strike_count + 1⟩ ∧
    (today - rec.start_date < PROBATION_DAYS →
      (process_verdict db today node verdict).1 = update_suspect db today node.id) ∧
    (PROBATION_DAYS ≤ today - rec.start_date →
      process_verdict db today node verdict =
        execute_rico_act (update_suspect db today node.id) today node verdict
          (today - rec.start_date)) := by
  have hg2 : ¬ verdict.status = "Innocent" := by rw [hg]; decide
  refine ⟨?_, fun hlt => ?_, fun hge => ?_⟩
  · rw [check_update, if_pos rfl, hr]
    rfl
  · rw [process_guilty_rec db today node verdict rec hg2 hr, if_neg (not_le.mpr hlt)]
  · rw [process_guilty_rec db today node verdict rec hg2 hr, if_pos hge]

/-- Witness for C9: the bump is visible at day 5 (surveillance path) and
the day-20 run equals remediation applied to the updated state. -/
theorem guilty_update_precedes_remediation_witness :
    check_probation (update_suspect sampleDB 5 "L") "L" = some ⟨"ZOMBIE", 0, 5, 2⟩ ∧
    (process_verdict sampleDB 5 sampleNode sampleVerdict).1 = update_suspect sampleDB 5 "L" ∧
    process_verdict sampleDB 20 sampleNode sampleVerdict =
      execute_rico_act (update_suspect sampleDB 20 "L") 20 sampleNode sampleVerdict (20 - 0) := by
  have h5 := guilty_update_precedes_remediation sampleDB 5 sampleNode sampleVerdict
    ⟨"ZOMBIE", 0, 0, 1⟩ rfl (by decide)
  have h20 := guilty_update_precedes_remediation sampleDB 20 sampleNode sampleVerdict
    ⟨"ZOMBIE", 0, 0, 1⟩ rfl (by decide)
  exact ⟨h5.1, h5.2.1 (by decide), h20.2.2 (by decide)⟩

/-- Claim C10: For every raw input whose link banner does not match
`\+\+\+\s+([A-Z0-9_]+)`, parsing yields the id `"UNKNOWN"`, and any
completed audit of such input can only touch the probation row keyed
`"UNKNOWN"` — every other link's row is left exactly as it was. -/
theorem unidentified_links_share_unknown_key
    (text : String) (db : DB) (today : Int)
    (hid : scanFor tryIdPat text.data = none) :
    (∀ r, parse text = some r → r.id = "UNKNOWN") ∧
    (∀ res, ingest_and_audit db today text = some res →
      ∀ l, ¬ l = "UNKNOWN" → check_probation res.1 l = check_probation db l) := by
  have hidd : ∀ r, parse text = some r → r.id = "UNKNOWN" := by
    intro r hr
    unfold parse at hr
    cases hst : extractStatus text.data with
    | none =>
      rw [hst] at hr
      exact absurd hr (by simp)
    | some st =>
      rw [hst] at hr
      have hrec : r = ⟨extractId text.data, extractLicense text.data,
          extractThroughput text.data, extractBandwidth text.data, st⟩ := by
        injection hr with h2
        exact h2.symm
      subst hrec
      show extractId text.data = "UNKNOWN"
      unfold extractId
      rw [hid]
  refine ⟨hidd, fun res hres l hl => ?_⟩
  unfold ingest_and_audit at hres
  by_cases hv : detect_vendor text = "Huawei"
  · rw [if_pos hv] at hres
    cases hp : parse text with
    | none =>
      rw [hp] at hres
      exact absurd hres (by simp)
    | some data =>
      rw [hp] at hres
      injection hres with hres
      rw [← hres]
      exact process_preserves_other_keys db today _ _ l (by
        show ¬ l = data.id
        rw [hidd data hp]
        exact hl)
  · rw [if_neg hv] at hres
    injection hres with hres
    rw [← hres]

/-- Witness for C10 at the concrete inputs `"zzz"` (no banner): the parse
id is `"UNKNOWN"` and an audit leaves link `"L"`'s row untouched. -/
theorem unidentified_links_share_unknown_key_witness :
    (⟨"UNKNOWN", 0, 0, 0, "DOWN"⟩ : RawFields).id = "UNKNOWN" ∧
    check_probation (sampleDB, Report.unknownVendor).1 "L" = check_probation sampleDB "L" := by
  have h := unidentified_links_share_unknown_key "zzz" sampleDB 0 (by decide)
  exact ⟨h.1 ⟨"UNKNOWN", 0, 0, 0, "DOWN"⟩ (by decide),
    h.2 (sampleDB, Report.unknownVendor) (by decide) "L" (by decide)⟩
